import Mathlib

/-!
Verification of the satellite-precipitation retrieval pipeline
(`base.py`, `get_data.py`): a shallow embedding of the data model and the
operations of the `Nasa` class, followed by theorems about the spatial
index mapping, the query builder, the catalog resolver, the granule
fetch/retry/cache loop and the retrieval orchestrator.

Conventions of the embedding:
* degree values are rational numbers (`ℚ`), standing for the exact decimal
  values the source manipulates (`np.round(np.arange(...), 2)` yields the
  exact two-decimal grid centers);
* calendar dates are integers (day numbers); `pd.date_range(a, b)` with a
  daily frequency is the inclusive integer range, empty when `a > b`;
* network activity is an explicit function parameter (`resolver`,
  `open_url`): the per-attempt outcome of `pydap.open_url` is
  `Option DS` (`none` = the attempt raised);
* the local cache directory is an association list from paths to the
  stored granule data; `os.path.isfile` is `lookup`-success, `to_netcdf`
  prepends the pair;
* `raise ValueError(msg)` is `Except.error msg`.
-/

/-- Python `needle in hay` prefix test on character lists. -/
def chars_pre : List Char → List Char → Bool
  | [], _ => true
  | _ :: _, [] => false
  | a :: as, b :: bs => a == b && chars_pre as bs

/-- Python substring containment on character lists. -/
def chars_in (needle : List Char) : List Char → Bool
  | [] => needle.isEmpty
  | b :: bs => chars_pre needle (b :: bs) || chars_in needle bs

/-- Python `needle in hay` on strings (substring containment). -/
def str_contains (needle hay : String) : Bool := chars_in needle.toList hay.toList

/-- Python `os.path.split(s)[0]`: everything before the last `/` (empty when
there is no separator). -/
def path_head (s : String) : String :=
  match (s.toList.reverse.dropWhile (fun c => c != '/')) with
  | [] => ""
  | _ :: t => String.mk t.reverse

/-- Python `', '.join(keys)` as used in the validation error messages. -/
def join_comma : List String → String
  | [] => ""
  | [a] => a
  | a :: rest => a ++ ", " ++ join_comma rest

/-- Python `'/'.join(parts)` as used when composing URLs. -/
def join_slash : List String → String
  | [] => ""
  | [a] => a
  | a :: rest => a ++ "/" ++ join_slash rest

/-- URL template of product `3IMERGHHE` (from `base.py`). -/
def template_3IMERGHHE : String :=
  "\x7bmission\x7d_\x7bproduct\x7d.\x7bversion:02\x7d/\x7byear\x7d/\x7bdayofyear:03\x7d/3B-HHR-E.MS.MRG.3IMERG.\x7bdate\x7d-S\x7btime_start\x7d-E\x7btime_end\x7d.\x7bminutes\x7d.V\x7bversion:02\x7dB.HDF5"

/-- URL template of product `3IMERGHHL` (from `base.py`). -/
def template_3IMERGHHL : String :=
  "\x7bmission\x7d_\x7bproduct\x7d.\x7bversion:02\x7d/\x7byear\x7d/\x7bdayofyear:03\x7d/3B-HHR-L.MS.MRG.3IMERG.\x7bdate\x7d-S\x7btime_start\x7d-E\x7btime_end\x7d.\x7bminutes\x7d.V\x7bversion:02\x7dB.HDF5"

/-- URL template of product `3IMERGHH` (from `base.py`; the source string ends
with a trailing blank, kept here verbatim). -/
def template_3IMERGHH : String :=
  "\x7bmission\x7d_\x7bproduct\x7d.\x7bversion:02\x7d/\x7byear\x7d/\x7bdayofyear:03\x7d/3B-HHR.MS.MRG.3IMERG.\x7bdate\x7d-S\x7btime_start\x7d-E\x7btime_end\x7d.\x7bminutes\x7d.V\x7bversion:02\x7dB.HDF5 "

/-- One mission entry of `mission_product_dict` (from `base.py`). -/
structure MissionDict where
  base_url : String
  process_level : String
  version : ℕ
  products : List (String × String)

/-- The `gpm` entry of `mission_product_dict` (from `base.py`). -/
def gpm_dict : MissionDict :=
  { base_url := "https://gpm1.gesdisc.eosdis.nasa.gov:443"
    process_level := "GPM_L3"
    version := 6
    products := [("3IMERGHHE", template_3IMERGHHE),
                 ("3IMERGHHL", template_3IMERGHHL),
                 ("3IMERGHH", template_3IMERGHH)] }

/-- The static mission registry `mission_product_dict` (from `base.py`). -/
def mission_product_dict : List (String × MissionDict) := [("gpm", gpm_dict)]

/-- The shared master variable list of the three IMERG products
(from `base.py`). -/
def imerg_master_list : List String :=
  ["precipitationQualityIndex", "IRkalmanFilterWeight", "precipitationCal",
   "HQprecipitation", "probabilityLiquidPrecipitation", "randomError",
   "IRprecipitation"]

/-- `master_datasets` (from `base.py`): each product name mapped to its master
variable list (the three lists in the source are identical). -/
def master_datasets : List (String × List String) :=
  [("3IMERGHHE", imerg_master_list),
   ("3IMERGHHL", imerg_master_list),
   ("3IMERGHH", imerg_master_list)]

/-- Validation part of `Nasa.__init__` (from `get_data.py`): the mission is
checked against the registry, then the product against the mission's product
table; each failure raises a `ValueError` naming the allowed keys.  An `ok`
result means validation passed and the constructor proceeds to
`setup_session` — the first network activity of the object. -/
def nasa_init (mission product : String) : Except String MissionDict :=
  match mission_product_dict.lookup mission with
  | none =>
      .error ("Mission should be one of: " ++
        join_comma (mission_product_dict.map Prod.fst))
  | some md =>
      if (md.products.lookup product).isSome then .ok md
      else
        .error ("Product must be one of: " ++
          join_comma (md.products.map Prod.fst))

/-- `np.argmin`-style scan: index of the first minimum of `f` on `[0, n)`
(`np.abs(grid - bound).argmin()` keeps the earliest index, updating only on a
strictly smaller value). -/
def argminFirst (f : ℕ → ℚ) (n : ℕ) : ℕ :=
  (List.range n).foldl (fun best i => if f i < f best then i else best) 0

/-- `range_lon` (from `get_data.py`): the `k`-th longitude grid center of
`np.round(np.arange(-179.95, 180, 0.1), 2)`, i.e. `-179.95 + 0.1·k` exactly
(3600 entries). -/
def range_lon (k : ℕ) : ℚ := ((-17995 + 10 * (k : ℤ) : ℤ) : ℚ) / 100

/-- `range_lat` (from `get_data.py`): the `k`-th latitude grid center of
`np.round(np.arange(-89.95, 90, 0.1), 2)`, i.e. `-89.95 + 0.1·k` exactly
(1800 entries). -/
def range_lat (k : ℕ) : ℚ := ((-8995 + 10 * (k : ℤ) : ℤ) : ℚ) / 100

/-- `(np.abs(range_lon - bound)).argmin()` (from `get_data.py`). -/
def lonIndex (x : ℚ) : ℕ := argminFirst (fun k => |range_lon k - x|) 3600

/-- `(np.abs(range_lat - bound)).argmin()` (from `get_data.py`). -/
def latIndex (x : ℚ) : ℕ := argminFirst (fun k => |range_lat k - x|) 1800

/-- Coordinate-to-index part of `Nasa.__download_files` (from `get_data.py`,
the four `argmin` assignments followed by the two degeneracy checks, which
raise `ValueError` before anything else happens).  Returns
`(min_lon, max_lon, min_lat, max_lat)` as grid indices. -/
def to_indices (min_lat max_lat min_lon max_lon : ℚ) :
    Except String (ℕ × ℕ × ℕ × ℕ) :=
  let min_lon_i := lonIndex min_lon
  let max_lon_i := lonIndex max_lon
  let min_lat_i := latIndex min_lat
  let max_lat_i := latIndex max_lat
  if min_lon_i ≥ max_lon_i then .error "min_lon must be smaller than max_lon"
  else if min_lat_i ≥ max_lat_i then
    .error "min_lat must be smaller than max_lat"
  else .ok (min_lon_i, max_lon_i, min_lat_i, max_lat_i)

/-- Query-composition part of `Nasa.__download_files` (from `get_data.py`):
the `coordinates` slice string, the ten per-variable conditional appends in
the source's textual order, then the `lat`, `lon` and `time` coordinate
expressions. -/
def build_query (url : String) (datasets : List String)
    (min_lon max_lon min_lat max_lat : ℕ) : String :=
  let coordinates := "[0:1:0][" ++ toString min_lon ++ ":1:" ++
    toString max_lon ++ "][" ++ toString min_lat ++ ":1:" ++
    toString max_lat ++ "]"
  let url := url ++ "?"
  let url := if datasets.contains "precipitationQualityIndex" then
    url ++ ("precipitationQualityIndex" ++ coordinates ++ ",") else url
  let url := if datasets.contains "IRkalmanFilterWeight" then
    url ++ ("IRkalmanFilterWeight" ++ coordinates ++ ",") else url
  let url := if datasets.contains "HQprecipSource" then
    url ++ ("HQprecipSource" ++ coordinates ++ ",") else url
  let url := if datasets.contains "precipitationCal" then
    url ++ ("precipitationCal" ++ coordinates ++ ",") else url
  let url := if datasets.contains "precipitationUncal" then
    url ++ ("precipitationUncal" ++ coordinates ++ ",") else url
  let url := if datasets.contains "HQprecipitation" then
    url ++ ("HQprecipitation" ++ coordinates ++ ",") else url
  let url := if datasets.contains "probabilityLiquidPrecipitation" then
    url ++ ("probabilityLiquidPrecipitation" ++ coordinates ++ ",") else url
  let url := if datasets.contains "HQobservationTime" then
    url ++ ("HQobservationTime" ++ coordinates ++ ",") else url
  let url := if datasets.contains "randomError" then
    url ++ ("randomError" ++ coordinates ++ ",") else url
  let url := if datasets.contains "IRprecipitation" then
    url ++ ("IRprecipitation" ++ coordinates ++ ",") else url
  let url := url ++ ("lat[" ++ toString min_lat ++ ":1:" ++
    toString max_lat ++ "],")
  let url := url ++ ("lon[" ++ toString min_lon ++ ":1:" ++
    toString max_lon ++ "],")
  url ++ "time[0:1:0]"

/-- The ten variable names tested by the conditional appends of
`Nasa.__download_files`, in the source's textual order. -/
def imerg_vars : List String :=
  ["precipitationQualityIndex", "IRkalmanFilterWeight", "HQprecipSource",
   "precipitationCal", "precipitationUncal", "HQprecipitation",
   "probabilityLiquidPrecipitation", "HQobservationTime", "randomError",
   "IRprecipitation"]

/-- Concatenation of `f` over a list of names (used to phrase the spec's
data-driven form of the query builder). -/
def catMap (f : String → String) : List String → String
  | [] => ""
  | v :: vs => f v ++ catMap f vs

/-- Modelled from the spec: the Query Builder contract of §4.3 — "for each
requested variable name found in the product's master dataset list, append a
subset expression of the form `var[0:1:0][min_lon:1:max_lon][min_lat:1:max_lat]`,
followed by the coordinate variables lat, lon, and a single-step time index",
with the variables taken in `masterList`'s declared order. -/
def build_query_spec (url : String) (masterList datasets : List String)
    (min_lon max_lon min_lat max_lat : ℕ) : String :=
  let coordinates := "[0:1:0][" ++ toString min_lon ++ ":1:" ++
    toString max_lon ++ "][" ++ toString min_lat ++ ":1:" ++
    toString max_lat ++ "]"
  url ++ "?" ++
    catMap (fun v => v ++ coordinates ++ ",")
      (masterList.filter (fun v => datasets.contains v)) ++
    ("lat[" ++ toString min_lat ++ ":1:" ++ toString max_lat ++ "],") ++
    ("lon[" ++ toString min_lon ++ ":1:" ++ toString max_lon ++ "],") ++
    "time[0:1:0]"

/-- Catalog-resolution core of `Nasa.__get_files_urls` (from `get_data.py`):
given the `ID` attributes of the listing's entry nodes (the children of the
document's fourth child, in source order), keep the entries whose identifier
does not contain `.xml` and prefix each with the mission's base URL. -/
def get_files_urls (base_url : String) (ids : List String) : List String :=
  (ids.filter (fun i => ! str_contains ".xml" i)).map (fun i => base_url ++ i)

/-- Observable outcome of one run of the retry loop of
`Nasa.__download_files`: the returned value (`none` when the loop falls
through after exhausting its counter), the cache state, the number of
`open_url` attempts made and the total seconds spent in `sleep`. -/
structure FetchTrace (DS : Type) where
  result : Option DS
  fs : List (String × DS)
  attempts : ℕ
  slept_seconds : ℕ

/-- Retry loop of `Nasa.__download_files` (from `get_data.py`): `counter`
starts at 5; each iteration attempts `open_url`; on success the dataset is
written to `path` unless the file already exists and the dataset is returned;
on failure the counter is decremented and the thread sleeps 3 seconds; when
the counter reaches zero the function falls through and returns `None`. -/
def download_files_loop {DS : Type} (open_url : ℕ → Option DS)
    (path : String) :
    ℕ → List (String × DS) → ℕ → ℕ → FetchTrace DS
  | 0, fs, att, slept => ⟨none, fs, att, slept⟩
  | counter + 1, fs, att, slept =>
    match open_url att with
    | some ds =>
        ⟨some ds, if (fs.lookup path).isSome then fs else (path, ds) :: fs,
         att + 1, slept⟩
    | none => download_files_loop open_url path counter fs (att + 1) (slept + 3)

/-- `Nasa.__download_files` (from `get_data.py`): map the bounding box to grid
indices (raising on a degenerate result), compose the subset query, then run
the bounded retry loop against the network.  `open_url` receives the composed
query and the attempt number. -/
def download_files {DS : Type} (open_url : String → ℕ → Option DS)
    (url path : String) (datasets : List String)
    (min_lat max_lat min_lon max_lon : ℚ)
    (fs : List (String × DS)) : Except String (FetchTrace DS) :=
  match to_indices min_lat max_lat min_lon max_lon with
  | .error e => .error e
  | .ok idx =>
      .ok (download_files_loop
        (open_url (build_query url datasets idx.1 idx.2.1 idx.2.2.1 idx.2.2.2))
        path 5 fs 0 0)

/-- `pd.date_range(from_date, to_date)` with daily frequency: the inclusive
integer range of day numbers, empty when `from_date > to_date`. -/
def date_range (from_date to_date : ℤ) : List ℤ :=
  if from_date ≤ to_date then
    (List.range (to_date - from_date + 1).toNat).map (fun i => from_date + (i : ℤ))
  else []

/-- `Nasa.get_data` (from `get_data.py`, the live code of lines 192–214): look
up the product's URL template, expand the date range, and build the granule
URL list — through the catalog `resolver` (one thread-pool call per date,
results flattened in submission order) when the template is day-of-year
based, or by direct templating (`month_url` stands for
`file_path.format(...)`) when it is month based.  The function returns the
URL list; when neither marker is present the source raises a `NameError`
since `url_list` was never assigned. -/
def get_data (md : MissionDict) (product : String)
    (resolver : ℤ → String → String → List String)
    (month_url : String → ℤ → String)
    (from_date to_date : ℤ) : Except String (List String) :=
  let file_path := (md.products.lookup product).getD ""
  let dates := date_range from_date to_date
  let base_url := md.base_url
  if str_contains "dayofyear" file_path then
    let fp := path_head file_path
    .ok ((dates.map (fun d => resolver d fp base_url)).flatten)
  else if str_contains "month" file_path then
    .ok (dates.map (fun d =>
      join_slash [base_url, "opendap", md.process_level, month_url file_path d]))
  else .error "name url_list is not defined"

/-! ### Properties of the first-minimum scan -/

theorem argminFirst_succ (f : ℕ → ℚ) (n : ℕ) :
    argminFirst f (n + 1) =
      if f n < f (argminFirst f n) then n else argminFirst f n := by
  unfold argminFirst
  rw [List.range_succ, List.foldl_append]
  rfl

theorem argminFirst_lt (f : ℕ → ℚ) (n : ℕ) (hn : 0 < n) :
    argminFirst f n < n := by
  induction n with
  | zero => omega
  | succ m ih =>
    rw [argminFirst_succ]
    split
    · omega
    · rcases Nat.eq_zero_or_pos m with h0 | hm
      · subst h0
        have e : argminFirst f 0 = 0 := rfl
        omega
      · exact Nat.lt_succ_of_lt (ih hm)

theorem argminFirst_min (f : ℕ → ℚ) (n : ℕ) :
    ∀ i, i < n → f (argminFirst f n) ≤ f i := by
  induction n with
  | zero => intro i hi; omega
  | succ m ih =>
    intro i hi
    rw [argminFirst_succ]
    split
    · rename_i h
      rcases Nat.lt_succ_iff_lt_or_eq.mp hi with hi' | hi'
      · exact le_of_lt (lt_of_lt_of_le h (ih i hi'))
      · subst hi'; exact le_refl _
    · rename_i h
      rcases Nat.lt_succ_iff_lt_or_eq.mp hi with hi' | hi'
      · exact ih i hi'
      · subst hi'; exact le_of_not_lt h

theorem argminFirst_first (f : ℕ → ℚ) (n : ℕ) :
    ∀ j, j < argminFirst f n → f (argminFirst f n) < f j := by
  induction n with
  | zero => intro j hj; exact absurd hj (by show ¬ j < 0; omega)
  | succ m ih =>
    intro j hj
    by_cases h : f m < f (argminFirst f m)
    · rw [argminFirst_succ, if_pos h] at hj ⊢
      exact lt_of_lt_of_le h (argminFirst_min f m j hj)
    · rw [argminFirst_succ, if_neg h] at hj ⊢
      exact ih j hj

theorem argminFirst_eq_of (f : ℕ → ℚ) (n k : ℕ) (hk : k < n)
    (hmin : ∀ i, i < n → f k ≤ f i)
    (hfirst : ∀ j, j < k → f k < f j) :
    argminFirst f n = k := by
  have hn : 0 < n := Nat.lt_of_le_of_lt (Nat.zero_le k) hk
  rcases Nat.lt_trichotomy (argminFirst f n) k with h | h | h
  · have h1 := hfirst _ h
    have h2 := argminFirst_min f n k hk
    exact absurd h1 (not_lt.mpr h2)
  · exact h
  · have h1 := argminFirst_first f n _ h
    have h2 := hmin _ (argminFirst_lt f n hn)
    exact absurd h1 (not_lt.mpr h2)

theorem abs_flip_lt (p q x : ℚ) (hpq : p < q) (h : |q - x| < |p - x|) :
    p + q < 2 * x := by
  rcases abs_cases (p - x) with ⟨h1, h2⟩ | ⟨h1, h2⟩ <;>
    rcases abs_cases (q - x) with ⟨h3, h4⟩ | ⟨h3, h4⟩ <;>
      rw [h1, h3] at h <;> linarith

theorem abs_flip_le (p q y : ℚ) (hpq : p < q) (h : |p - y| ≤ |q - y|) :
    2 * y ≤ p + q := by
  rcases abs_cases (p - y) with ⟨h1, h2⟩ | ⟨h1, h2⟩ <;>
    rcases abs_cases (q - y) with ⟨h3, h4⟩ | ⟨h3, h4⟩ <;>
      rw [h1, h3] at h <;> linarith

theorem argminFirst_abs_mono (c : ℕ → ℚ) (hc : ∀ i j, i < j → c i < c j)
    (n : ℕ) (x y : ℚ) (hxy : x ≤ y) :
    argminFirst (fun k => |c k - x|) n ≤ argminFirst (fun k => |c k - y|) n := by
  by_contra hcon
  push_neg at hcon
  have hn : 0 < n := by
    rcases Nat.eq_zero_or_pos n with h0 | h
    · subst h0
      have e1 : argminFirst (fun k => |c k - x|) 0 = 0 := rfl
      have e2 : argminFirst (fun k => |c k - y|) 0 = 0 := rfl
      rw [e1, e2] at hcon
      omega
    · exact h
  have hiLt : argminFirst (fun k => |c k - x|) n < n := argminFirst_lt _ n hn
  have h1 : |c (argminFirst (fun k => |c k - x|) n) - x| <
      |c (argminFirst (fun k => |c k - y|) n) - x| :=
    argminFirst_first (fun k => |c k - x|) n _ hcon
  have h2 : |c (argminFirst (fun k => |c k - y|) n) - y| ≤
      |c (argminFirst (fun k => |c k - x|) n) - y| :=
    argminFirst_min (fun k => |c k - y|) n _ hiLt
  have hcji : c (argminFirst (fun k => |c k - y|) n) <
      c (argminFirst (fun k => |c k - x|) n) := hc _ _ hcon
  have e1 := abs_flip_lt _ _ x hcji h1
  have e2 := abs_flip_le _ _ y hcji h2
  linarith

theorem argminFirst_abs_bot (c : ℕ → ℚ) (hc : ∀ i j, i < j → c i < c j)
    (n : ℕ) (hn : 0 < n) (x : ℚ) (hx : x ≤ c 0) :
    argminFirst (fun k => |c k - x|) n = 0 := by
  apply argminFirst_eq_of _ _ _ hn
  · intro i _
    show |c 0 - x| ≤ |c i - x|
    have h0i : c 0 ≤ c i := by
      rcases Nat.eq_zero_or_pos i with h0 | h
      · subst h0; exact le_refl _
      · exact le_of_lt (hc 0 i h)
    rw [abs_of_nonneg (by linarith : (0:ℚ) ≤ c 0 - x),
        abs_of_nonneg (by linarith : (0:ℚ) ≤ c i - x)]
    linarith
  · intro j hj; omega

theorem argminFirst_abs_top (c : ℕ → ℚ) (hc : ∀ i j, i < j → c i < c j)
    (n : ℕ) (hn : 0 < n) (x : ℚ) (hx : c (n - 1) ≤ x) :
    argminFirst (fun k => |c k - x|) n = n - 1 := by
  apply argminFirst_eq_of _ _ _ (by omega)
  · intro i hi
    show |c (n - 1) - x| ≤ |c i - x|
    have h0i : c i ≤ c (n - 1) := by
      rcases Nat.lt_or_ge i (n - 1) with h | h
      · exact le_of_lt (hc i (n - 1) h)
      · have : i = n - 1 := by omega
        subst this; exact le_refl _
    rw [abs_of_nonpos (by linarith : c (n - 1) - x ≤ 0),
        abs_of_nonpos (by linarith : c i - x ≤ 0)]
    linarith
  · intro j hj
    show |c (n - 1) - x| < |c j - x|
    have h0j : c j < c (n - 1) := hc j (n - 1) hj
    rw [abs_of_nonpos (by linarith : c (n - 1) - x ≤ 0),
        abs_of_nonpos (by linarith : c j - x ≤ 0)]
    linarith

/-! ### Properties of the fixed grids -/

theorem range_lon_mono : ∀ i j : ℕ, i < j → range_lon i < range_lon j := by
  intro i j hij
  unfold range_lon
  have h : ((-17995 + 10 * (i:ℤ) : ℤ) : ℚ) < ((-17995 + 10 * (j:ℤ) : ℤ) : ℚ) := by
    exact_mod_cast (by omega : (-17995 + 10 * (i:ℤ)) < -17995 + 10 * (j:ℤ))
  linarith

theorem range_lat_mono : ∀ i j : ℕ, i < j → range_lat i < range_lat j := by
  intro i j hij
  unfold range_lat
  have h : ((-8995 + 10 * (i:ℤ) : ℤ) : ℚ) < ((-8995 + 10 * (j:ℤ) : ℤ) : ℚ) := by
    exact_mod_cast (by omega : (-8995 + 10 * (i:ℤ)) < -8995 + 10 * (j:ℤ))
  linarith

theorem range_lon_zero : range_lon 0 = -17995 / 100 := by norm_num [range_lon]

theorem range_lon_last : range_lon 3599 = 17995 / 100 := by norm_num [range_lon]

theorem range_lat_zero : range_lat 0 = -8995 / 100 := by norm_num [range_lat]

theorem range_lat_last : range_lat 1799 = 8995 / 100 := by norm_num [range_lat]

theorem lonIndex_bot (x : ℚ) (hx : x ≤ -17995 / 100) : lonIndex x = 0 :=
  argminFirst_abs_bot range_lon range_lon_mono 3600 (by norm_num) x
    (by rw [range_lon_zero]; exact hx)

theorem lonIndex_top (x : ℚ) (hx : 17995 / 100 ≤ x) : lonIndex x = 3599 :=
  argminFirst_abs_top range_lon range_lon_mono 3600 (by norm_num) x
    (by show range_lon (3600 - 1) ≤ x; rw [show 3600 - 1 = 3599 from rfl, range_lon_last]; exact hx)

theorem latIndex_bot (x : ℚ) (hx : x ≤ -8995 / 100) : latIndex x = 0 :=
  argminFirst_abs_bot range_lat range_lat_mono 1800 (by norm_num) x
    (by rw [range_lat_zero]; exact hx)

theorem latIndex_top (x : ℚ) (hx : 8995 / 100 ≤ x) : latIndex x = 1799 :=
  argminFirst_abs_top range_lat range_lat_mono 1800 (by norm_num) x
    (by show range_lat (1800 - 1) ≤ x; rw [show 1800 - 1 = 1799 from rfl, range_lat_last]; exact hx)

theorem lonIndex_mono (x y : ℚ) (h : x ≤ y) : lonIndex x ≤ lonIndex y :=
  argminFirst_abs_mono range_lon range_lon_mono 3600 x y h

theorem latIndex_mono (x y : ℚ) (h : x ≤ y) : latIndex x ≤ latIndex y :=
  argminFirst_abs_mono range_lat range_lat_mono 1800 x y h

/-! ### Properties of the retry/cache loop -/

theorem download_files_loop_attempts_le {DS : Type} (u : ℕ → Option DS)
    (path : String) :
    ∀ (c : ℕ) (fs : List (String × DS)) (att slept : ℕ),
      (download_files_loop u path c fs att slept).attempts ≤ att + c := by
  intro c
  induction c with
  | zero => intro fs att slept; simp [download_files_loop]
  | succ m ih =>
    intro fs att slept
    cases h : u att with
    | some ds =>
      simp only [download_files_loop, h]
      show att + 1 ≤ att + (m + 1)
      omega
    | none =>
      simp only [download_files_loop, h]
      have := ih fs (att + 1) (slept + 3)
      omega

theorem download_files_loop_all_fail {DS : Type} (u : ℕ → Option DS)
    (path : String) (hu : ∀ i, u i = none) :
    ∀ (c : ℕ) (fs : List (String × DS)) (att slept : ℕ),
      download_files_loop u path c fs att slept =
        ⟨none, fs, att + c, slept + 3 * c⟩ := by
  intro c
  induction c with
  | zero => intro fs att slept; simp [download_files_loop]
  | succ m ih =>
    intro fs att slept
    simp only [download_files_loop, hu att]
    rw [ih fs (att + 1) (slept + 3)]
    have e1 : att + 1 + m = att + (m + 1) := by omega
    have e2 : slept + 3 + 3 * m = slept + 3 * (m + 1) := by omega
    rw [e1, e2]

theorem download_files_loop_isfile {DS : Type} (u : ℕ → Option DS)
    (path : String) (fs : List (String × DS))
    (hex : (fs.lookup path).isSome = true) :
    ∀ (c att slept : ℕ),
      (download_files_loop u path c fs att slept).fs = fs := by
  intro c
  induction c with
  | zero => intro att slept; simp [download_files_loop]
  | succ m ih =>
    intro att slept
    cases h : u att with
    | some ds => simp [download_files_loop, h, hex]
    | none =>
      simp only [download_files_loop, h]
      exact ih (att + 1) (slept + 3)

theorem download_files_loop_absent {DS : Type} (u : ℕ → Option DS)
    (path : String) (fs : List (String × DS))
    (hab : fs.lookup path = none) :
    ∀ (c att slept : ℕ),
      ((download_files_loop u path c fs att slept).result = none ∧
        (download_files_loop u path c fs att slept).fs = fs) ∨
      (∃ d, (download_files_loop u path c fs att slept).result = some d ∧
        (download_files_loop u path c fs att slept).fs = (path, d) :: fs) := by
  intro c
  induction c with
  | zero => intro att slept; left; exact ⟨rfl, rfl⟩
  | succ m ih =>
    intro att slept
    cases h : u att with
    | some ds =>
      right
      refine ⟨ds, ?_, ?_⟩ <;> simp [download_files_loop, h, hab]
    | none =>
      simp only [download_files_loop, h]
      exact ih (att + 1) (slept + 3)

/-! ### Properties of the query builder -/

theorem ite_append_out (c : Prop) [Decidable c] (u s : String) :
    (if c then u ++ s else u) = u ++ (if c then s else "") := by
  split <;> simp

theorem catMap_filter_cons (f : String → String) (p : String → Bool)
    (v : String) (vs : List String) :
    catMap f ((v :: vs).filter p) =
      (if p v then f v else "") ++ catMap f (vs.filter p) := by
  cases h : p v <;> simp [List.filter_cons, h, catMap]

/-- C7 (amended): the composed subset query equals the spec's data-driven
construction applied to the hard-coded ten-name list `imerg_vars` (not to the
product's seven-name master dataset list); filtering `imerg_vars` by
membership in the master list returns exactly the master list, so on
master-list variables the hard-coded order coincides with the declared
order.  Determinism is immediate since `build_query` is a function of its
arguments. -/
theorem build_query_amended (url : String) (datasets : List String)
    (min_lon max_lon min_lat max_lat : ℕ) :
    build_query url datasets min_lon max_lon min_lat max_lat =
      build_query_spec url imerg_vars datasets min_lon max_lon min_lat max_lat ∧
    imerg_vars.filter (fun v => imerg_master_list.contains v) =
      imerg_master_list := by
  constructor
  · simp only [build_query, build_query_spec, imerg_vars]
    simp only [ite_append_out, catMap_filter_cons]
    simp [catMap, String.append_assoc, String.append_empty, String.empty_append]
  · decide

/-- C7 (counterexample): requesting the single variable `HQprecipSource`,
which is absent from the product's master dataset list, still puts its subset
expression into the composed query, so the query differs from the one the
claim describes (the spec construction over the true master list, which would
contain no variable at all here). -/
theorem build_query_foreign_var_counterexample :
    build_query "u" ["HQprecipSource"] 0 1 0 1 ≠
      build_query_spec "u" imerg_master_list ["HQprecipSource"] 0 1 0 1 ∧
    imerg_master_list.contains "HQprecipSource" = false := by
  constructor
  · decide
  · decide

/-- C1 (evaluation at the failing input): for a valid gpm/3IMERGHH retrieval
over the two days 0 and 1, `get_data` returns the flattened list of granule
URLs produced by the catalog resolver — not a merged, time-sorted dataset:
the download/concatenate/sort stage of the source is commented out and the
function returns `url_list`, contradicting its own docstring ("Returns
xarray dataset, Coordinates are time, lon, lat"). -/
theorem get_data_returns_url_list :
    get_data gpm_dict "3IMERGHH"
      (fun d _ _ => ["u" ++ toString d]) (fun _ _ => "") 0 1 =
      Except.ok ["u0", "u1"] := by
  rfl

/-- C9 (counterexample): a date range that expands to zero dates makes
`get_data` return an empty URL list wrapped in a normal result — no
`EmptyRetrieval`-style failure is raised anywhere on this path. -/
theorem empty_range_returns_empty :
    get_data gpm_dict "3IMERGHH" (fun _ _ _ => ["u"]) (fun _ _ => "") 1 0 =
      Except.ok [] := by
  rfl

/-- C9 (amended): for any resolver and any date range whose end precedes its
start, the expanded date list is empty and `get_data` silently returns the
empty URL list (a normal result, not an error). -/
theorem empty_range_amended (resolver : ℤ → String → String → List String)
    (month_url : String → ℤ → String) (f t : ℤ) (h : t < f) :
    get_data gpm_dict "3IMERGHH" resolver month_url f t = Except.ok [] := by
  have hdr : date_range f t = [] := by
    unfold date_range
    rw [if_neg (not_le.mpr h)]
  unfold get_data
  rw [hdr]
  rfl

/-- C9 (witness for the amended theorem). -/
theorem empty_range_amended_witness :
    ((0 : ℤ) < 1) ∧
    get_data gpm_dict "3IMERGHH" (fun _ _ _ => ["u"]) (fun _ _ => "") 1 0 =
      Except.ok [] :=
  ⟨by decide, empty_range_amended (fun _ _ _ => ["u"]) (fun _ _ => "") 1 0 (by decide)⟩

/-- Unfolding lemma for `download_files` when the spatial mapping succeeds
(stated with a neutral index tuple so that concrete instances never force the
kernel to evaluate the 3600-cell argmin scan). -/
theorem download_files_ok {DS : Type} (open_url : String → ℕ → Option DS)
    (url path : String) (datasets : List String)
    (min_lat max_lat min_lon max_lon : ℚ) (fs : List (String × DS))
    (idx : ℕ × ℕ × ℕ × ℕ)
    (h : to_indices min_lat max_lat min_lon max_lon = Except.ok idx) :
    download_files open_url url path datasets min_lat max_lat min_lon max_lon fs =
      Except.ok (download_files_loop
        (open_url (build_query url datasets idx.1 idx.2.1 idx.2.2.1 idx.2.2.2))
        path 5 fs 0 0) := by
  unfold download_files
  rw [h]

/-- Unfolding lemma for `download_files` when the spatial mapping raises. -/
theorem download_files_err {DS : Type} (open_url : String → ℕ → Option DS)
    (url path : String) (datasets : List String)
    (min_lat max_lat min_lon max_lon : ℚ) (fs : List (String × DS))
    (e : String)
    (h : to_indices min_lat max_lat min_lon max_lon = Except.error e) :
    download_files open_url url path datasets min_lat max_lat min_lon max_lon fs =
      Except.error e := by
  unfold download_files
  rw [h]

/-- C3 (evaluation at the failing input): the mission/product validation of
the constructor passes for gpm/3IMERGHH, the name `notAVariable` is not in
the product's master dataset list, and yet the granule pipeline for a request
carrying exactly that variable does not fail — it proceeds all the way to a
network attempt (`attempts = 1`) and returns normally, because neither
`get_data` nor `__download_files` checks requested variables against the
master list (unknown names are silently dropped by the query builder). -/
theorem unknown_variable_reaches_network :
    nasa_init "gpm" "3IMERGHH" = Except.ok gpm_dict ∧
    imerg_master_list.contains "notAVariable" = false ∧
    download_files (fun _ _ => some (0 : ℕ)) "u" "p" ["notAVariable"]
        (-90) 90 (-180) 180 [] =
      Except.ok ⟨some 0, [("p", 0)], 1, 0⟩ := by
  refine ⟨by rfl, by decide, ?_⟩
  have h1 : lonIndex (-180) = 0 := lonIndex_bot _ (by norm_num)
  have h2 : lonIndex 180 = 3599 := lonIndex_top _ (by norm_num)
  have h3 : latIndex (-90) = 0 := latIndex_bot _ (by norm_num)
  have h4 : latIndex 90 = 1799 := latIndex_top _ (by norm_num)
  have hidx : to_indices (-90) 90 (-180) 180 = Except.ok (0, 3599, 0, 1799) := by
    simp only [to_indices, h1, h2, h3, h4]
    norm_num
  rw [download_files_ok (fun _ _ => some (0 : ℕ)) "u" "p" ["notAVariable"]
    (-90) 90 (-180) 180 [] (0, 3599, 0, 1799) hidx]
  rfl

/-- C4 (counterexample): the bounding box with longitudes −300 … 300 lies far
outside the grid's physical extent (±180), yet the spatial mapping accepts
it: both out-of-range bounds clamp to the grid edges (indices 0 and 3599),
the strictness checks pass, and no error is raised. -/
theorem out_of_extent_bbox_accepted :
    to_indices (-90) 90 (-300) 300 = Except.ok (0, 3599, 0, 1799) := by
  have h1 : lonIndex (-300) = 0 := lonIndex_bot _ (by norm_num)
  have h2 : lonIndex 300 = 3599 := lonIndex_top _ (by norm_num)
  have h3 : latIndex (-90) = 0 := latIndex_bot _ (by norm_num)
  have h4 : latIndex 90 = 1799 := latIndex_top _ (by norm_num)
  simp only [to_indices, h1, h2, h3, h4]
  norm_num

/-- C4 (amended): the spatial mapping fails — with the source's `ValueError`,
uniformly in the network function, i.e. before any granule fetch is
dispatched — exactly when the nearest-cell min index is not strictly below
the max index on the longitude or the latitude axis.  Bounds outside the
grid's physical extent are not rejected as such: they clamp to the grid
edges and pass whenever the resulting indices are still strictly ordered. -/
theorem bbox_degenerate_check_amended (min_lat max_lat min_lon max_lon : ℚ) :
    ((∃ e, to_indices min_lat max_lat min_lon max_lon = Except.error e) ↔
      (lonIndex max_lon ≤ lonIndex min_lon ∨ latIndex max_lat ≤ latIndex min_lat)) ∧
    ((lonIndex max_lon ≤ lonIndex min_lon ∨ latIndex max_lat ≤ latIndex min_lat) →
      ∀ (DS : Type) (open_url : String → ℕ → Option DS) (url path : String)
        (datasets : List String) (fs : List (String × DS)),
        ∃ e, download_files open_url url path datasets
          min_lat max_lat min_lon max_lon fs = Except.error e) := by
  have herr : (lonIndex max_lon ≤ lonIndex min_lon ∨
      latIndex max_lat ≤ latIndex min_lat) →
      ∃ e, to_indices min_lat max_lat min_lon max_lon = Except.error e := by
    intro h
    by_cases hA : lonIndex max_lon ≤ lonIndex min_lon
    · exact ⟨_, by simp only [to_indices, ge_iff_le]; rw [if_pos hA]⟩
    · rcases h with h | hB
      · exact absurd h hA
      · exact ⟨_, by simp only [to_indices, ge_iff_le]; rw [if_neg hA, if_pos hB]⟩
  constructor
  · constructor
    · rintro ⟨e, he⟩
      by_contra hcon
      push_neg at hcon
      obtain ⟨hA, hB⟩ := hcon
      simp only [to_indices, ge_iff_le] at he
      rw [if_neg (not_le.mpr hA), if_neg (not_le.mpr hB)] at he
      exact Except.noConfusion he
    · exact herr
  · intro h DS open_url url path datasets fs
    rcases herr h with ⟨e, he⟩
    exact ⟨e, download_files_err open_url url path datasets
      min_lat max_lat min_lon max_lon fs e he⟩

/-- C4 (witness for the amended theorem): the degenerate box with all four
bounds 0 satisfies the degeneracy condition trivially, and the fetch pipeline
rejects it before any network activity. -/
theorem bbox_degenerate_check_amended_witness :
    (lonIndex (0 : ℚ) ≤ lonIndex (0 : ℚ) ∨ latIndex (0 : ℚ) ≤ latIndex (0 : ℚ)) ∧
    ∃ e, download_files (fun _ _ => some (0 : ℕ)) "u" "p" [] 0 0 0 0 [] =
      Except.error e :=
  ⟨Or.inl (le_refl _),
   (bbox_degenerate_check_amended 0 0 0 0).2 (Or.inl (le_refl _))
     ℕ (fun _ _ => some 0) "u" "p" [] []⟩

/-- C2 (counterexample): with a network that fails on every attempt, the
retry loop of the granule fetcher exhausts its five attempts (sleeping 3
seconds after each failure, 15 seconds in total) and then falls through,
returning the non-error value `None` — no `GranuleFetchFailed`-style error is
raised; the `while` loop simply ends and the function returns implicitly. -/
theorem retry_exhaust_returns_none_counterexample :
    download_files_loop (fun _ => (none : Option ℕ)) "p" 5 [] 0 0 =
      ⟨none, [], 5, 15⟩ := rfl

/-- C2 (amended): the fetcher makes at most five `open_url` attempts; when
every attempt fails it makes exactly five, sleeps 3 seconds after each failed
attempt (15 seconds in total), and returns `None` instead of raising. -/
theorem retry_bound_amended {DS : Type} (u : ℕ → Option DS) (path : String)
    (fs : List (String × DS)) (hu : ∀ i, u i = none) :
    download_files_loop u path 5 fs 0 0 = ⟨none, fs, 5, 15⟩ ∧
    ∀ (DS' : Type) (u' : ℕ → Option DS') (path' : String)
      (fs' : List (String × DS')),
      (download_files_loop u' path' 5 fs' 0 0).attempts ≤ 5 :=
  ⟨download_files_loop_all_fail u path hu 5 fs 0 0,
   fun _ u' path' fs' => download_files_loop_attempts_le u' path' 5 fs' 0 0⟩

/-- C2 (witness for the amended theorem). -/
theorem retry_bound_amended_witness :
    (download_files_loop (fun _ => (none : Option ℕ)) "q" 5 [("a", 3)] 0 0 =
      ⟨none, [("a", 3)], 5, 15⟩) ∧
    ∀ (DS' : Type) (u' : ℕ → Option DS') (path' : String)
      (fs' : List (String × DS')),
      (download_files_loop u' path' 5 fs' 0 0).attempts ≤ 5 :=
  retry_bound_amended (fun _ => (none : Option ℕ)) "q" [("a", 3)] (fun _ => rfl)

/-- C5: for every in-range degree bound, the spatial index mapping picks the
grid cell whose center has minimal absolute difference to the bound, and any
equidistant cell has an index no smaller than the chosen one (the scan keeps
the first minimal absolute difference, so ties resolve to the lower index). -/
theorem spatial_index_nearest_first (x y : ℚ)
    (hx1 : -180 ≤ x) (hx2 : x ≤ 180) (hy1 : -90 ≤ y) (hy2 : y ≤ 90) :
    (lonIndex x < 3600 ∧
      (∀ j, j < 3600 → |range_lon (lonIndex x) - x| ≤ |range_lon j - x|) ∧
      (∀ j, j < 3600 → |range_lon j - x| = |range_lon (lonIndex x) - x| →
        lonIndex x ≤ j)) ∧
    (latIndex y < 1800 ∧
      (∀ j, j < 1800 → |range_lat (latIndex y) - y| ≤ |range_lat j - y|) ∧
      (∀ j, j < 1800 → |range_lat j - y| = |range_lat (latIndex y) - y| →
        latIndex y ≤ j)) := by
  refine ⟨⟨argminFirst_lt _ 3600 (by norm_num), ?_, ?_⟩,
          ⟨argminFirst_lt _ 1800 (by norm_num), ?_, ?_⟩⟩
  · intro j hj
    exact argminFirst_min (fun k => |range_lon k - x|) 3600 j hj
  · intro j _ heq
    by_contra hlt
    push_neg at hlt
    have h5 := argminFirst_first (fun k => |range_lon k - x|) 3600 j hlt
    exact ne_of_lt h5 heq.symm
  · intro j hj
    exact argminFirst_min (fun k => |range_lat k - y|) 1800 j hj
  · intro j _ heq
    by_contra hlt
    push_neg at hlt
    have h5 := argminFirst_first (fun k => |range_lat k - y|) 1800 j hlt
    exact ne_of_lt h5 heq.symm

/-- C5 (witness). -/
theorem spatial_index_nearest_first_witness :
    (-180 ≤ (0 : ℚ)) ∧ ((0 : ℚ) ≤ 180) ∧ (-90 ≤ (0 : ℚ)) ∧ ((0 : ℚ) ≤ 90) ∧
    ((lonIndex 0 < 3600 ∧
      (∀ j, j < 3600 → |range_lon (lonIndex 0) - 0| ≤ |range_lon j - 0|) ∧
      (∀ j, j < 3600 → |range_lon j - 0| = |range_lon (lonIndex 0) - 0| →
        lonIndex 0 ≤ j)) ∧
    (latIndex 0 < 1800 ∧
      (∀ j, j < 1800 → |range_lat (latIndex 0) - 0| ≤ |range_lat j - 0|) ∧
      (∀ j, j < 1800 → |range_lat j - 0| = |range_lat (latIndex 0) - 0| →
        latIndex 0 ≤ j))) :=
  ⟨by norm_num, by norm_num, by norm_num, by norm_num,
   spatial_index_nearest_first 0 0 (by norm_num) (by norm_num) (by norm_num)
     (by norm_num)⟩

/-- C6: the bounding-box-to-index mapping is monotonic — for a bounding box
strictly nested inside a larger one, the nested box's index range on each
axis is a subset of the outer box's index range. -/
theorem spatial_index_nested_subset
    (lo_min lo_min' lo_max' lo_max la_min la_min' la_max' la_max : ℚ)
    (h1 : lo_min < lo_min') (h2 : lo_max' < lo_max)
    (h3 : la_min < la_min') (h4 : la_max' < la_max) :
    (lonIndex lo_min ≤ lonIndex lo_min' ∧ lonIndex lo_max' ≤ lonIndex lo_max) ∧
    (latIndex la_min ≤ latIndex la_min' ∧ latIndex la_max' ≤ latIndex la_max) :=
  ⟨⟨lonIndex_mono _ _ h1.le, lonIndex_mono _ _ h2.le⟩,
   ⟨latIndex_mono _ _ h3.le, latIndex_mono _ _ h4.le⟩⟩

/-- C6 (witness). -/
theorem spatial_index_nested_subset_witness :
    ((-50 : ℚ) < -20) ∧ ((25 : ℚ) < 40) ∧ ((-30 : ℚ) < -10) ∧ ((5 : ℚ) < 15) ∧
    ((lonIndex (-50) ≤ lonIndex (-20) ∧ lonIndex 25 ≤ lonIndex 40) ∧
     (latIndex (-30) ≤ latIndex (-10) ∧ latIndex 5 ≤ latIndex 15)) :=
  ⟨by norm_num, by norm_num, by norm_num, by norm_num,
   spatial_index_nested_subset (-50) (-20) 25 40 (-30) (-10) 5 15
     (by norm_num) (by norm_num) (by norm_num) (by norm_num)⟩

/-- C8: for every listing, the catalog resolver returns exactly one URL per
entry whose identifier does not contain the `.xml` listing marker — the
number of returned URLs plus the number of marker entries is the total number
of entries — and the result is, in source order, each data entry's identifier
prefixed with the mission's base URL. -/
theorem catalog_urls_one_per_data_entry (base_url : String) (ids : List String) :
    (get_files_urls base_url ids).length +
      (ids.filter (fun i => str_contains ".xml" i)).length = ids.length ∧
    get_files_urls base_url ids =
      ids.foldr (fun i acc =>
        if str_contains ".xml" i then acc else (base_url ++ i) :: acc) [] := by
  constructor
  · induction ids with
    | nil => rfl
    | cons a l ih =>
      cases h : str_contains ".xml" a <;>
        simp [get_files_urls, List.filter_cons, h] at ih ⊢ <;> omega
  · induction ids with
    | nil => rfl
    | cons a l ih =>
      cases h : str_contains ".xml" a <;>
        simp [get_files_urls, List.filter_cons, h] at ih ⊢ <;> exact ih

/-- Any value returned by the retry loop was produced by one of the network
attempts: the cache is never consulted for the returned data. -/
theorem download_files_loop_result_from_net {DS : Type} (u : ℕ → Option DS)
    (path : String) (fs : List (String × DS)) :
    ∀ (c att slept : ℕ) (d : DS),
      (download_files_loop u path c fs att slept).result = some d →
      ∃ i, u i = some d := by
  intro c
  induction c with
  | zero => intro att slept d h; exact Option.noConfusion h
  | succ m ih =>
    intro att slept d h
    cases h0 : u att with
    | some ds =>
      simp only [download_files_loop, h0] at h
      exact ⟨att, by rw [h0, h]⟩
    | none =>
      simp only [download_files_loop, h0] at h
      exact ih (att + 1) (slept + 3) d h

/-- C10: cache behaviour of one granule fetch (the retry loop run with the
fetcher's fixed counter 5).  (a) Every pre-existing cache entry keeps its
content — an existing file is never overwritten or modified; (b) when the
granule's file already exists, the cache is left completely unchanged, and
any returned data still comes fresh from a network attempt (never from the
cache); (c) when the file is absent and the fetch succeeds, the fetched
slice is written exactly once (one new entry, at the granule's path, holding
the returned data); (d) running the fetch again after a successful run
leaves the cache unchanged — re-running the same retrieval never modifies an
existing cache file. -/
theorem cache_write_once_idempotent (DS : Type) (u : ℕ → Option DS)
    (path : String) (fs : List (String × DS)) :
    (∀ p d, fs.lookup p = some d →
      (download_files_loop u path 5 fs 0 0).fs.lookup p = some d) ∧
    (((fs.lookup path).isSome = true →
      (download_files_loop u path 5 fs 0 0).fs = fs) ∧
     (∀ d, (download_files_loop u path 5 fs 0 0).result = some d →
      ∃ i, u i = some d)) ∧
    (∀ d, fs.lookup path = none →
      (download_files_loop u path 5 fs 0 0).result = some d →
      (download_files_loop u path 5 fs 0 0).fs = (path, d) :: fs) ∧
    (∀ u2 : ℕ → Option DS,
      (download_files_loop u path 5 fs 0 0).result.isSome = true →
      (download_files_loop u2 path 5
          ((download_files_loop u path 5 fs 0 0).fs) 0 0).fs =
        (download_files_loop u path 5 fs 0 0).fs) := by
  refine ⟨?_, ⟨?_, ?_⟩, ?_, ?_⟩
  · intro p d hd
    cases hex : (fs.lookup path).isSome with
    | true =>
      rw [download_files_loop_isfile u path fs hex 5 0 0]
      exact hd
    | false =>
      have hab : fs.lookup path = none := by
        cases ho : fs.lookup path with
        | none => rfl
        | some v => rw [ho] at hex; exact Bool.noConfusion hex
      rcases download_files_loop_absent u path fs hab 5 0 0 with ⟨_, hfs⟩ | ⟨d', _, hfs⟩
      · rw [hfs]; exact hd
      · rw [hfs]
        have hne : (p == path) = false := by
          rw [beq_eq_false_iff_ne]
          intro hpp
          subst hpp
          rw [hab] at hd
          exact Option.noConfusion hd
        simp only [List.lookup, hne]
        exact hd
  · intro hex
    exact download_files_loop_isfile u path fs hex 5 0 0
  · intro d h
    exact download_files_loop_result_from_net u path fs 5 0 0 d h
  · intro d hab hres
    rcases download_files_loop_absent u path fs hab 5 0 0 with ⟨hnone, _⟩ | ⟨d', hres', hfs⟩
    · rw [hres] at hnone; exact Option.noConfusion hnone
    · rw [hres] at hres'
      have hdd : d = d' := Option.some.inj hres'
      subst hdd
      exact hfs
  · intro u2 hres
    cases hex : (fs.lookup path).isSome with
    | true =>
      rw [download_files_loop_isfile u path fs hex 5 0 0]
      exact download_files_loop_isfile u2 path fs hex 5 0 0
    | false =>
      have hab : fs.lookup path = none := by
        cases ho : fs.lookup path with
        | none => rfl
        | some v => rw [ho] at hex; exact Bool.noConfusion hex
      rcases download_files_loop_absent u path fs hab 5 0 0 with ⟨hnone, _⟩ | ⟨d', _, hfs⟩
      · rw [hnone] at hres; exact Bool.noConfusion hres
      · rw [hfs]
        have hex2 : (((path, d') :: fs).lookup path).isSome = true := by
          simp [List.lookup]
        exact download_files_loop_isfile u2 path ((path, d') :: fs) hex2 5 0 0

/-- C10 (witness). -/
theorem cache_write_once_idempotent_witness :
    (∀ p d, ([(("p" : String), (1 : ℕ))].lookup p = some d →
      (download_files_loop (fun _ => some 7) "p" 5 [("p", 1)] 0 0).fs.lookup p = some d)) ∧
    ((([(("p" : String), (1 : ℕ))].lookup "p").isSome = true →
      (download_files_loop (fun _ => some 7) "p" 5 [("p", 1)] 0 0).fs = [("p", 1)]) ∧
     (∀ d, (download_files_loop (fun _ => some 7) "p" 5 [("p", 1)] 0 0).result = some d →
      ∃ i, (fun (_ : ℕ) => some (7 : ℕ)) i = some d)) ∧
    (∀ d, [(("p" : String), (1 : ℕ))].lookup "p" = none →
      (download_files_loop (fun _ => some 7) "p" 5 [("p", 1)] 0 0).result = some d →
      (download_files_loop (fun _ => some 7) "p" 5 [("p", 1)] 0 0).fs = ("p", d) :: [("p", 1)]) ∧
    (∀ u2 : ℕ → Option ℕ,
      (download_files_loop (fun _ => some 7) "p" 5 [("p", 1)] 0 0).result.isSome = true →
      (download_files_loop u2 "p" 5
          ((download_files_loop (fun _ => some 7) "p" 5 [("p", 1)] 0 0).fs) 0 0).fs =
        (download_files_loop (fun _ => some 7) "p" 5 [("p", 1)] 0 0).fs) :=
  cache_write_once_idempotent ℕ (fun _ => some 7) "p" [("p", 1)]
